import Mathlib

/-!
Verification development for the NFL fantasy data-extraction repository.

The definitions below are a shallow embedding, in Lean, of the Python
modules under dev/: the adaptive rate limiter, the fantasy-points
calculator, the bulk database insert, the HTML table-row normalization,
the statistics validator and the week-number extraction chain. Machine
floats carrying small decimal constants are modelled by rationals;
Python exceptions are modelled by Except; dictionaries whose keys are
fixed by the code are modelled by structures, and optional or absent
values by Option.
-/

namespace NFLFantasy

/-! ## Rounding

Python round(x, 2) rounds to the nearest hundredth, ties to even
(banker rounding). -/

/-- Round a rational to the nearest integer, ties to the even integer. -/
def roundHalfEven (q : ℚ) : ℤ :=
  let f : ℤ := Int.floor q
  let frac : ℚ := q - f
  if frac < 1/2 then f
  else if 1/2 < frac then f + 1
  else if f % 2 = 0 then f else f + 1

/-- Round to 2 decimal places, as Python round(x, 2). -/
def round2 (q : ℚ) : ℚ := (roundHalfEven (q * 100) : ℚ) / 100

/-! ## Scoring configuration (dev/data_extraction/core/config.py, FANTASY_SCORING) -/

/-- The FANTASY_SCORING table from config.py, weights as exact rationals. -/
def FANTASY_SCORING : List (String × ℚ) :=
  [("passing_yards", 1/25), ("passing_tds", 4), ("interceptions_thrown", -2),
   ("two_point_pass", 2), ("rushing_yards", 1/10), ("rushing_tds", 6),
   ("two_point_rush", 2), ("receiving_yards", 1/10), ("receptions", 1/2),
   ("receiving_tds", 6), ("two_point_reception", 2), ("fumbles_lost", -2),
   ("tackles_solo", 1), ("tackles_assisted", 1/2), ("sacks", 2),
   ("interceptions", 2), ("fumbles_forced", 2), ("fumbles_recovered", 2),
   ("passes_defended", 1), ("safeties", 2), ("defensive_tds", 6),
   ("blocked_kicks", 2), ("kick_return_tds", 6), ("punt_return_tds", 6)]

/-- Look up a scoring weight by category name (0 if absent; the
calculator only reads keys that are present). -/
def scoringWeight (k : String) : ℚ :=
  ((FANTASY_SCORING.find? (fun p => p.1 = k)).map Prod.snd).getD 0

/-! ## Stat records (rows of the per-category stats tables)

Each structure holds the fields the corresponding calculator reads via
stats.get(key, 0); a missing field is the same as 0. -/

structure PassingStats where
  passing_yards : ℚ := 0
  passing_tds : ℚ := 0
  interceptions : ℚ := 0
  two_point_conversions : ℚ := 0
deriving Repr, DecidableEq

structure RushingStats where
  rushing_yards : ℚ := 0
  rushing_tds : ℚ := 0
  two_point_conversions : ℚ := 0
  fumbles_lost : ℚ := 0
deriving Repr, DecidableEq

structure ReceivingStats where
  receiving_yards : ℚ := 0
  receptions : ℚ := 0
  receiving_tds : ℚ := 0
  two_point_conversions : ℚ := 0
  fumbles_lost : ℚ := 0
deriving Repr, DecidableEq

structure DefensiveStats where
  tackles_solo : ℚ := 0
  tackles_assisted : ℚ := 0
  sacks : ℚ := 0
  interceptions : ℚ := 0
  fumbles_forced : ℚ := 0
  fumbles_recovered : ℚ := 0
  passes_defended : ℚ := 0
  safeties : ℚ := 0
  defensive_tds : ℚ := 0
  blocked_kicks : ℚ := 0
deriving Repr, DecidableEq

structure ReturnStats where
  kick_return_tds : ℚ := 0
  punt_return_tds : ℚ := 0
deriving Repr, DecidableEq

/-! ## Per-category calculators
(dev/data_extraction/extractors/fantasy_calculator.py) -/

/-- FantasyPointsCalculator.calculate_passing_points. -/
def calculate_passing_points (s : PassingStats) : ℚ :=
  round2 (s.passing_yards * scoringWeight "passing_yards"
    + s.passing_tds * scoringWeight "passing_tds"
    + s.interceptions * scoringWeight "interceptions_thrown"
    + s.two_point_conversions * scoringWeight "two_point_pass")

/-- FantasyPointsCalculator.calculate_rushing_points. -/
def calculate_rushing_points (s : RushingStats) : ℚ :=
  round2 (s.rushing_yards * scoringWeight "rushing_yards"
    + s.rushing_tds * scoringWeight "rushing_tds"
    + s.two_point_conversions * scoringWeight "two_point_rush"
    + s.fumbles_lost * scoringWeight "fumbles_lost")

/-- FantasyPointsCalculator.calculate_receiving_points. -/
def calculate_receiving_points (s : ReceivingStats) : ℚ :=
  round2 (s.receiving_yards * scoringWeight "receiving_yards"
    + s.receptions * scoringWeight "receptions"
    + s.receiving_tds * scoringWeight "receiving_tds"
    + s.two_point_conversions * scoringWeight "two_point_reception"
    + s.fumbles_lost * scoringWeight "fumbles_lost")

/-- FantasyPointsCalculator.calculate_defensive_points. -/
def calculate_defensive_points (s : DefensiveStats) : ℚ :=
  round2 (s.tackles_solo * scoringWeight "tackles_solo"
    + s.tackles_assisted * scoringWeight "tackles_assisted"
    + s.sacks * scoringWeight "sacks"
    + s.interceptions * scoringWeight "interceptions"
    + s.fumbles_forced * scoringWeight "fumbles_forced"
    + s.fumbles_recovered * scoringWeight "fumbles_recovered"
    + s.passes_defended * scoringWeight "passes_defended"
    + s.safeties * scoringWeight "safeties"
    + s.defensive_tds * scoringWeight "defensive_tds"
    + s.blocked_kicks * scoringWeight "blocked_kicks")

/-- FantasyPointsCalculator.calculate_special_teams_points. -/
def calculate_special_teams_points (s : ReturnStats) : ℚ :=
  round2 (s.kick_return_tds * scoringWeight "kick_return_tds"
    + s.punt_return_tds * scoringWeight "punt_return_tds")

/-- Passing points as the spec phrases it: the sum, over the recognized
passing sub-stats, of sub-stat value times configured weight, rounded to
2 decimals. -/
def specPassingPoints (s : PassingStats) : ℚ :=
  round2 (([(s.passing_yards, "passing_yards"),
            (s.passing_tds, "passing_tds"),
            (s.interceptions, "interceptions_thrown"),
            (s.two_point_conversions, "two_point_pass")].map
      (fun p => p.1 * scoringWeight p.2)).sum)

/-! ## Adaptive rate limiter (dev/data_extraction/core/rate_limiter.py)

State is tracked per domain; we model the state of one domain. Before
the first call the per-domain dictionaries have no entry, which the code
reads back with the defaults base_interval (interval) and 0 (errors),
so the initial state carries those defaults directly. Time is an
idealized rational clock: time.sleep is exact and calls take no time. -/

structure RLConfig where
  base_interval : ℚ
  max_interval : ℚ
deriving Repr, DecidableEq

structure RLState where
  interval : ℚ
  errors : ℕ
  last : Option ℚ
deriving Repr, DecidableEq

/-- Per-domain state before the first wait_for_request call. -/
def initRLState (cfg : RLConfig) : RLState :=
  { interval := cfg.base_interval, errors := 0, last := none }

/-- Outcome of the previous request, as reported to wait_for_request. -/
structure Outcome where
  success : Bool
  status : Option ℤ
deriving Repr, DecidableEq

/-- The status_code in [429, 503, 502] test. -/
def isRateLimitStatus (s : Option ℤ) : Bool :=
  s = some 429 || s = some 503 || s = some 502

/-- The interval/error-count update of wait_for_request
(rate_limiter.py lines 99-123), given the interval and error count read
for the domain at entry. -/
def updatePolicy (cfg : RLConfig) (interval : ℚ) (errors : ℕ) (o : Outcome) :
    ℚ × ℕ :=
  if isRateLimitStatus o.status then
    let e := errors + 1
    (min (cfg.base_interval * 2 ^ e) cfg.max_interval, e)
  else if o.success && (o.status = some 200 || o.status = some 201) then
    if 0 < errors then
      let e := errors - 1
      (cfg.base_interval * 2 ^ e, e)
    else (interval, errors)
  else if !o.success then
    (min (interval * (3/2)) cfg.max_interval, errors + 1)
  else (interval, errors)

/-- One call of AdaptiveRateLimiter.wait_for_request at clock time now:
update the interval and error count from the reported outcome, sleep
until the interval since the last request has elapsed, and record the
time the next request is issued. -/
def wait_for_request (cfg : RLConfig) (st : RLState) (o : Outcome) (now : ℚ) :
    RLState :=
  let p := updatePolicy cfg st.interval st.errors o
  let t : ℚ := match st.last with
    | none => now
    | some t0 => max now (t0 + p.1)
  { interval := p.1, errors := p.2, last := some t }

/-- Run a sequence of wait_for_request calls, each with its outcome and
clock time. -/
def runLimiter (cfg : RLConfig) (st : RLState) : List (Outcome × ℚ) → RLState
  | [] => st
  | c :: cs => runLimiter cfg (wait_for_request cfg st c.1 c.2) cs

/-- The time of the most recent request (0 before the first). -/
def lastRequestTime (st : RLState) : ℚ := st.last.getD 0

/-! ## Bulk insert (dev/data_extraction/core/database.py, insert_bulk_data)

INSERT OR IGNORE processes the batch row by row: a row whose natural
key is already present in the table (or was inserted earlier in the same
batch) is silently skipped. cursor.rowcount after executemany counts
the rows actually inserted. A table is modelled as the list of stored
records; the natural key of a record is its first component. -/

/-- A stored record: natural key paired with its payload. -/
abbrev DbRecord := ℕ × ℤ

/-- One INSERT OR IGNORE step: skip when the key exists, append and
count otherwise. -/
def insertOrIgnore (acc : List DbRecord × ℕ) (r : DbRecord) :
    List DbRecord × ℕ :=
  if acc.1.any (fun x => x.1 = r.1) then acc
  else (acc.1 ++ [r], acc.2 + 1)

/-- DatabaseManager.insert_bulk_data: insert the batch into the table,
returning the new table and the number of rows actually inserted. -/
def insert_bulk_data (table : List DbRecord) (data : List DbRecord) :
    List DbRecord × ℕ :=
  data.foldl insertOrIgnore (table, 0)

/-! ## HTML table-row normalization (dev/pfr_scraper.py lines 224-241)

After the cell texts of each body row are collected, the scraper aligns
the rows with the header: when some row is longer than the header, a
player_link column is appended to the header and every shorter row is
padded with nulls up to the new header length; then every row is padded
with nulls or truncated to the header length. A cell is null (None) or
a text. -/

abbrev Cell := Option String

/-- Right-pad a row with nulls to length n (no-op when already longer). -/
def padRow (n : ℕ) (row : List Cell) : List Cell :=
  row ++ List.replicate (n - row.length) none

/-- The header/row alignment step of
ProFootballReferenceScraper._extract_stats_table: returns the final
header list and the normalized rows. -/
def normalizeTable (headers : List String) (rows : List (List Cell)) :
    List String × List (List Cell) :=
  let p :=
    if rows.any (fun r => headers.length < r.length) then
      (headers ++ ["player_link"], rows.map (padRow (headers.length + 1)))
    else (headers, rows)
  (p.1, p.2.map (fun r =>
    if r.length < p.1.length then padRow p.1.length r
    else r.take p.1.length))

/-- Pad-or-truncate a row to exactly n cells. -/
def fitRow (n : ℕ) (row : List Cell) : List Cell :=
  if row.length ≤ n then padRow n row else row.take n

/-- The final header count: the original one, plus one when some row is
longer than the header (the appended player_link column). -/
def finalHeaderCount (headers : List String) (rows : List (List Cell)) : ℕ :=
  if rows.any (fun r => headers.length < r.length) then headers.length + 1
  else headers.length

/-! ## Player-game fantasy points
(fantasy_calculator.py, calculate_player_game_points and
bulk_calculate_fantasy_points)

The database queries of calculate_player_game_points are modelled by
lookup functions: the player row (position) by player id, and each
per-category stats row by (player id, game id). -/

structure PointsBreakdown where
  passing_points : ℚ
  rushing_points : ℚ
  receiving_points : ℚ
  defensive_points : ℚ
  special_teams_points : ℚ
  total_points : ℚ
deriving Repr, DecidableEq

/-- The tables calculate_player_game_points reads. -/
structure StatsDb where
  position : ℕ → Option String
  passingStats : ℕ → ℕ → Option PassingStats
  rushingStats : ℕ → ℕ → Option RushingStats
  receivingStats : ℕ → ℕ → Option ReceivingStats
  defensiveStats : ℕ → ℕ → Option DefensiveStats
  returnStats : ℕ → ℕ → Option ReturnStats

/-- The defensive-position filter of calculate_player_game_points. -/
def isDefensivePosition (pos : String) : Bool :=
  ["DT", "DE", "LB", "CB", "S", "DL", "DB"].contains pos

/-- FantasyPointsCalculator.calculate_player_game_points: None when the
player is unknown, otherwise the per-category breakdown with its total. -/
def calculate_player_game_points (db : StatsDb) (player_id game_id : ℕ) :
    Option PointsBreakdown :=
  match db.position player_id with
  | none => none
  | some pos =>
    let pass := match db.passingStats player_id game_id with
      | some s => calculate_passing_points s
      | none => 0
    let rush := match db.rushingStats player_id game_id with
      | some s => calculate_rushing_points s
      | none => 0
    let recv := match db.receivingStats player_id game_id with
      | some s => calculate_receiving_points s
      | none => 0
    let dfns := if isDefensivePosition pos then
        match db.defensiveStats player_id game_id with
        | some s => calculate_defensive_points s
        | none => 0
      else 0
    let spec := match db.returnStats player_id game_id with
      | some s => calculate_special_teams_points s
      | none => 0
    some { passing_points := pass, rushing_points := rush,
           receiving_points := recv, defensive_points := dfns,
           special_teams_points := spec,
           total_points := pass + rush + recv + dfns + spec }

/-- A fantasy-point record as built by bulk_calculate_fantasy_points:
the (player, game) identity with its points breakdown. -/
structure FantasyRecord where
  player_id : ℕ
  game_id : ℕ
  points : PointsBreakdown
deriving Repr, DecidableEq

/-- The record-building loop of bulk_calculate_fantasy_points: for each
(player, game) pair, a record is appended only when the computed
breakdown exists and its total is strictly positive
(the test that points is non-null and its total_points exceeds 0). -/
def bulkFantasyRecords (db : StatsDb) (pairs : List (ℕ × ℕ)) :
    List FantasyRecord :=
  pairs.filterMap (fun pg =>
    match calculate_player_game_points db pg.1 pg.2 with
    | some bd =>
      if 0 < bd.total_points then
        some { player_id := pg.1, game_id := pg.2, points := bd }
      else none
    | none => none)

/-- Whether bulk_calculate_fantasy_points stores a record for a pair. -/
def storesPair (db : StatsDb) (player_id game_id : ℕ) : Bool :=
  match calculate_player_game_points db player_id game_id with
  | some bd => decide (0 < bd.total_points)
  | none => false

/-! ## Statistics validator
(dev/data_extraction/core/data_validator.py, validate_stats_data, kind
passing)

Record values are dynamic: null, a number, or a text. An order
comparison between a number and null (or a number and a text) raises
TypeError in Python, modelled by Except.error. Issue messages are
modelled by tags. -/

inductive PyVal
  | vnone
  | num (q : ℚ)
  | str (s : String)
deriving Repr, DecidableEq

/-- A stat record: a dictionary of column name to dynamic value. -/
abbrev PyRecord := List (String × PyVal)

/-- The field-in-stat test (key presence, the value may be null). -/
def hasKey (s : PyRecord) (k : String) : Bool :=
  s.any (fun p => p.1 = k)

/-- stat.get(k, d): the stored value when the key is present (even when
it is null), the default otherwise. -/
def getKeyD (s : PyRecord) (k : String) (d : PyVal) : PyVal :=
  match s.find? (fun p => p.1 = k) with
  | some p => p.2
  | none => d

/-- Python order comparison a < b on dynamic values: defined between
two numbers and between two texts, TypeError otherwise. -/
def pyLt (a b : PyVal) : Except Unit Bool :=
  match a, b with
  | .num x, .num y => .ok (decide (x < y))
  | .str x, .str y => .ok (decide (x < y))
  | _, _ => .error ()

/-- Python order comparison a > b. -/
def pyGt (a b : PyVal) : Except Unit Bool := pyLt b a

/-- Validation issues, as tags for the appended messages. -/
inductive VIssue
  | noStats
  | missingField (field : String)
  | unusualPassingYards
  | completionsExceedAttempts
deriving Repr, DecidableEq

structure VResult where
  valid : Bool
  errors : List VIssue
  warnings : List VIssue
deriving Repr, DecidableEq

/-- Required fields for passing stats. -/
def requiredPassingFields : List String :=
  ["player_id", "game_id", "attempts", "completions", "passing_yards"]

/-- The missing-required-field errors for one record. -/
def missingFieldIssues (fields : List String) (s : PyRecord) : List VIssue :=
  fields.filterMap (fun f =>
    if hasKey s f then none else some (.missingField f))

/-- The passing range and consistency checks for one record: yardage
outside [0, 600] appends a warning, completions exceeding attempts
appends an error; either comparison can raise on non-numeric values.
The disjunction short-circuits as in Python. -/
def passingRecordChecks (s : PyRecord) :
    Except Unit (List VIssue × List VIssue) := do
  let yards := getKeyD s "passing_yards" (.num 0)
  let lt ← pyLt yards (.num 0)
  let unusual ← if lt then pure true else pyGt yards (.num 600)
  let warns := if unusual then [VIssue.unusualPassingYards] else []
  let completions := getKeyD s "completions" (.num 0)
  let attempts := getKeyD s "attempts" (.num 0)
  let gt ← pyGt completions attempts
  let errs := if gt then [VIssue.completionsExceedAttempts] else []
  pure (errs, warns)

/-- The passing checks over the whole batch, in order. -/
def passingChecks : List PyRecord → Except Unit (List VIssue × List VIssue)
  | [] => .ok ([], [])
  | s :: rest => do
    let p ← passingRecordChecks s
    let q ← passingChecks rest
    pure (p.1 ++ q.1, p.2 ++ q.2)

/-- DataValidator.validate_stats_data with stat_type passing: required
fields first, then the range and consistency checks; the result is
valid exactly when no error was appended. -/
def validate_stats_data_passing (stats : List PyRecord) :
    Except Unit VResult :=
  if stats.isEmpty then .ok { valid := true, errors := [], warnings := [.noStats] }
  else do
    let miss := (stats.map (missingFieldIssues requiredPassingFields)).flatten
    let pc ← passingChecks stats
    let errors := miss ++ pc.1
    pure { valid := errors.isEmpty, errors := errors, warnings := pc.2 }

/-! ## Week-number extraction
(dev/data_extraction/extractors/games_extractor.py,
GamesExtractor._extract_week_from_event)

Event fields are semi-structured JSON values. A week field is either a
dictionary with an optional number entry, or a primitive (int or text).
The whole body runs under a try/except that turns any uncaught
exception into None; int() on a non-numeric text raises, and a date
string that fromisoformat cannot parse raises, both modelled by
Except.error. -/

inductive JPrim
  | int (n : ℤ)
  | str (s : String)
deriving Repr, DecidableEq

/-- Python truthiness of a primitive: 0 and the empty text are falsy. -/
def truthy : JPrim → Bool
  | .int n => n ≠ 0
  | .str s => s ≠ ""

/-- Nonempty and all decimal digits, as str.isdigit. -/
def isDigits (s : String) : Bool := !s.isEmpty && s.all Char.isDigit

/-- The integer value of a digit string. -/
def digitsToInt (s : String) : ℤ :=
  s.foldl (fun a c => a * 10 + ((c.toNat : ℤ) - 48)) 0

/-- Python int(text), as an optional value. -/
def pyStrToInt (s : String) : Option ℤ :=
  if isDigits s then some (digitsToInt s)
  else if s.startsWith "-" && isDigits (s.drop 1) then
    some (-(digitsToInt (s.drop 1)))
  else none

/-- Python int() on a primitive; raising on a non-numeric text. -/
def toIntE : JPrim → Except Unit ℤ
  | .int n => .ok n
  | .str s => match pyStrToInt s with
    | some n => .ok n
    | none => .error ()

/-- A week field: a dictionary with an optional number entry, or a
primitive value. -/
inductive WeekField
  | dict (number : Option JPrim)
  | prim (v : JPrim)
deriving Repr, DecidableEq

/-- A calendar date (year, month, day). -/
structure CivilDate where
  y : ℤ
  m : ℤ
  d : ℤ
deriving Repr, DecidableEq

/-- A date string: either it parses to a date or fromisoformat raises. -/
inductive DateField
  | valid (d : CivilDate)
  | malformed
deriving Repr, DecidableEq

structure SeasonInfo where
  week : Option JPrim := none
  slug : Option String := none
  year : Option ℤ := none
deriving Repr, DecidableEq

structure Competition where
  week : Option WeekField := none
deriving Repr, DecidableEq

structure Event where
  week : Option WeekField := none
  competitions : List Competition := []
  season : Option SeasonInfo := none
  date : Option DateField := none
  name : String := ""
  shortName : String := ""
deriving Repr, DecidableEq

/-- Days since 1970-01-01 of a calendar date (civil-from-days
arithmetic with floor division). -/
def daysFromCivil (c : CivilDate) : ℤ :=
  let y := if c.m ≤ 2 then c.y - 1 else c.y
  let era := y.fdiv 400
  let yoe := y - era * 400
  let mp := (c.m + 9) % 12
  let doy := (153 * mp + 2).fdiv 5 + c.d - 1
  let doe := yoe * 365 + yoe.fdiv 4 - yoe.fdiv 100 + doy
  era * 146097 + doe - 719468

/-- Weekday of a date, Monday = 0 as in Python date.weekday. -/
def weekdayOf (c : CivilDate) : ℤ := (daysFromCivil c + 3) % 7

/-- The first Thursday of September of a year (the while loop starting
at September 1; a Thursday always occurs within the first seven days,
so the default branch is unreachable). -/
def firstThursdaySeptember (y : ℤ) : CivilDate :=
  match [1, 2, 3, 4, 5, 6, 7].find? (fun d => weekdayOf ⟨y, 9, d⟩ = 3) with
  | some d => ⟨y, 9, d⟩
  | none => ⟨y, 9, 1⟩

/-- Reading a week number out of a week field (methods 1 and 2): a
dictionary with a truthy number entry converts with int() (uncaught on
failure); a primitive converts with int() under a local try that turns
failure into nothing. -/
def weekFieldValue : WeekField → Except Unit (Option ℤ)
  | .dict none => .ok none
  | .dict (some p) => if truthy p then (toIntE p).map some else .ok none
  | .prim p => match toIntE p with
    | .ok n => .ok (some n)
    | .error _ => .ok none

/-- Method 3: the season-level week (int() under a local try), then the
season slug when it is all digits. -/
def seasonWeekValue (si : SeasonInfo) : Option ℤ :=
  let fromWeek : Option ℤ := match si.week with
    | some p =>
      if truthy p then
        match toIntE p with
        | .ok n => some n
        | .error _ => none
      else none
    | none => none
  match fromWeek with
  | some n => some n
  | none => match si.slug with
    | some s => if isDigits s then some (digitsToInt s) else none
    | none => none

/-- The week count of a game date, from the first Thursday of
September of the season year (floor division, as Python //). -/
def dateWeekEstimate (d : CivilDate) (y : ℤ) : ℤ :=
  (daysFromCivil d - daysFromCivil (firstThursdaySeptember y)).fdiv 7 + 1

/-- Method 4: the date-arithmetic estimate. The week count from the
first Thursday of September of the season year, accepted only in
1..22; a malformed date or a non-positive year raises (datetime
requires year at least 1), a missing date or year produces nothing. -/
def dateEstimateValue (e : Event) : Except Unit (Option ℤ) :=
  match e.date with
  | none => .ok none
  | some .malformed => .error ()
  | some (.valid d) =>
    match e.season.bind SeasonInfo.year with
    | none => .ok none
    | some y =>
      if y = 0 then .ok none
      else if y < 1 then .error ()
      else if 1 ≤ dateWeekEstimate d y ∧ dateWeekEstimate d y ≤ 22 then
        .ok (some (dateWeekEstimate d y))
      else .ok none

/-- The words of a text, split on spaces. -/
def splitWords (s : String) : List String :=
  (s.splitOn " ").filter (fun w => w ≠ "")

/-- Scan a word list for the word Week followed by a digit word. -/
def scanWeekWords : List String → Option ℤ
  | [] => none
  | w :: rest =>
    if w = "Week" then
      match rest with
      | n :: _ => if isDigits n then some (digitsToInt n) else scanWeekWords rest
      | [] => none
    else scanWeekWords rest

/-- Method 5: the free-text scan over the event name, then the short
name. -/
def textScanValue (e : Event) : Option ℤ :=
  match scanWeekWords (splitWords e.name) with
  | some n => some n
  | none => scanWeekWords (splitWords e.shortName)

/-- Method 1: the explicit week field of the event. -/
def stageEventWeek (e : Event) : Except Unit (Option ℤ) :=
  match e.week with
  | none => .ok none
  | some w => weekFieldValue w

/-- Method 2: the week field of the first competition. -/
def stageCompetitionWeek (e : Event) : Except Unit (Option ℤ) :=
  match e.competitions with
  | [] => .ok none
  | c :: _ => match c.week with
    | none => .ok none
    | some w => weekFieldValue w

/-- Method 3 at the event level (it cannot raise). -/
def seasonStageValue (e : Event) : Option ℤ :=
  match e.season with
  | none => none
  | some si => seasonWeekValue si

/-- GamesExtractor._extract_week_from_event, transliterated from the
source in its early-return order: each method runs only when every
earlier one produced nothing; an uncaught exception anywhere in the
body is caught at the outer level and yields None, as the surrounding
try/except does. -/
def extract_week_from_event (e : Event) : Option ℤ :=
  let body : Except Unit (Option ℤ) := do
    let r1 ← stageEventWeek e
    match r1 with
    | some w => pure (some w)
    | none =>
      let r2 ← stageCompetitionWeek e
      match r2 with
      | some w => pure (some w)
      | none =>
        match seasonStageValue e with
        | some w => pure (some w)
        | none =>
          let r4 ← dateEstimateValue e
          match r4 with
          | some w => pure (some w)
          | none => pure (textScanValue e)
  match body with
  | .ok r => r
  | .error _ => none

/-! ## Concrete fixtures used by counterexamples and witnesses -/

/-- A database holding one quarterback whose only statistic in game 1
is one interception thrown: the combined fantasy total is -2. -/
def interceptionOnlyDb : StatsDb :=
  { position := fun p => if p = 1 then some "QB" else none
    passingStats := fun p g => if p = 1 ∧ g = 1 then some { interceptions := 1 } else none
    rushingStats := fun _ _ => none
    receivingStats := fun _ _ => none
    defensiveStats := fun _ _ => none
    returnStats := fun _ _ => none }

/-- A database holding one quarterback with 300 passing yards in game
1: the combined fantasy total is 12. -/
def positiveTotalDb : StatsDb :=
  { position := fun p => if p = 1 then some "QB" else none
    passingStats := fun p g => if p = 1 ∧ g = 1 then some { passing_yards := 300 } else none
    rushingStats := fun _ _ => none
    receivingStats := fun _ _ => none
    defensiveStats := fun _ _ => none
    returnStats := fun _ _ => none }

/-! ## Supporting lemmas -/

section InsertBulkLemmas

/-- Keys present in the accumulated table stay present. -/
theorem insertOrIgnore_keys_mono (acc : List DbRecord × ℕ) (r x : DbRecord)
    (hx : x ∈ acc.1) : x ∈ (insertOrIgnore acc r).1 := by
  unfold insertOrIgnore
  split
  · exact hx
  · exact List.mem_append_left _ hx

theorem foldl_insertOrIgnore_keys_mono (data : List DbRecord) :
    ∀ (acc : List DbRecord × ℕ) (x : DbRecord), x ∈ acc.1 →
      x ∈ (data.foldl insertOrIgnore acc).1 := by
  induction data with
  | nil => intro acc x hx; exact hx
  | cons r rest ih =>
    intro acc x hx
    exact ih _ x (insertOrIgnore_keys_mono acc r x hx)

/-- The key-presence test, as a proposition. -/
theorem insert_keyPresent_iff (t : List DbRecord) (k : ℕ) :
    (t.any (fun x => x.1 = k)) = true ↔ ∃ x ∈ t, x.1 = k := by
  simp [List.any_eq_true]

/-- After the batch is processed, every batch key is present. -/
theorem foldl_insertOrIgnore_key_present (data : List DbRecord) :
    ∀ (acc : List DbRecord × ℕ) (r : DbRecord), r ∈ data →
      ∃ x ∈ (data.foldl insertOrIgnore acc).1, x.1 = r.1 := by
  induction data with
  | nil => intro acc r hr; cases hr
  | cons s rest ih =>
    intro acc r hr
    rcases List.mem_cons.mp hr with h | h
    · subst h
      by_cases hk : (acc.1.any (fun x => x.1 = r.1)) = true
      · rcases (insert_keyPresent_iff acc.1 r.1).mp hk with ⟨x, hx, hxk⟩
        have hx2 : x ∈ (insertOrIgnore acc r).1 := insertOrIgnore_keys_mono acc r x hx
        exact ⟨x, foldl_insertOrIgnore_keys_mono rest _ x hx2, hxk⟩
      · have hx2 : r ∈ (insertOrIgnore acc r).1 := by
          unfold insertOrIgnore
          rw [if_neg hk]
          exact List.mem_append_right _ (List.mem_singleton.mpr rfl)
        exact ⟨r, foldl_insertOrIgnore_keys_mono rest _ r hx2, rfl⟩
    · exact ih (insertOrIgnore acc s) r h

/-- A batch all of whose keys are already present changes nothing. -/
theorem foldl_insertOrIgnore_stable (data : List DbRecord) :
    ∀ (acc : List DbRecord × ℕ),
      (∀ r ∈ data, ∃ x ∈ acc.1, x.1 = r.1) →
      data.foldl insertOrIgnore acc = acc := by
  induction data with
  | nil => intro acc _; rfl
  | cons s rest ih =>
    intro acc hall
    have hs : (acc.1.any (fun x => x.1 = s.1)) = true :=
      (insert_keyPresent_iff acc.1 s.1).mpr (hall s (List.mem_cons_self s rest))
    have hstep : insertOrIgnore acc s = acc := by
      unfold insertOrIgnore; rw [if_pos hs]
    rw [List.foldl_cons, hstep]
    exact ih acc (fun r hr => hall r (List.mem_cons_of_mem s hr))

/-- The returned count is the number of rows the table grew by. -/
theorem foldl_insertOrIgnore_count (data : List DbRecord) :
    ∀ (acc : List DbRecord × ℕ),
      (data.foldl insertOrIgnore acc).1.length + acc.2
        = acc.1.length + (data.foldl insertOrIgnore acc).2 := by
  induction data with
  | nil => intro acc; rfl
  | cons s rest ih =>
    intro acc
    rw [List.foldl_cons]
    by_cases hk : (acc.1.any (fun x => x.1 = s.1)) = true
    · rw [show insertOrIgnore acc s = acc from by unfold insertOrIgnore; rw [if_pos hk]]
      exact ih acc
    · rw [show insertOrIgnore acc s = (acc.1 ++ [s], acc.2 + 1) from by
        unfold insertOrIgnore; rw [if_neg hk]]
      have := ih (acc.1 ++ [s], acc.2 + 1)
      simp only [List.length_append, List.length_singleton] at this
      omega

end InsertBulkLemmas

section ScoringWeightValues

@[simp] theorem sw_passing_yards : scoringWeight "passing_yards" = 1/25 := rfl

@[simp] theorem sw_passing_tds : scoringWeight "passing_tds" = 4 := rfl

@[simp] theorem sw_interceptions_thrown : scoringWeight "interceptions_thrown" = -2 := rfl

@[simp] theorem sw_two_point_pass : scoringWeight "two_point_pass" = 2 := rfl

@[simp] theorem sw_rushing_yards : scoringWeight "rushing_yards" = 1/10 := rfl

@[simp] theorem sw_rushing_tds : scoringWeight "rushing_tds" = 6 := rfl

@[simp] theorem sw_two_point_rush : scoringWeight "two_point_rush" = 2 := rfl

@[simp] theorem sw_receiving_yards : scoringWeight "receiving_yards" = 1/10 := rfl

@[simp] theorem sw_receptions : scoringWeight "receptions" = 1/2 := rfl

@[simp] theorem sw_receiving_tds : scoringWeight "receiving_tds" = 6 := rfl

@[simp] theorem sw_two_point_reception : scoringWeight "two_point_reception" = 2 := rfl

@[simp] theorem sw_fumbles_lost : scoringWeight "fumbles_lost" = -2 := rfl

@[simp] theorem sw_kick_return_tds : scoringWeight "kick_return_tds" = 6 := rfl

@[simp] theorem sw_punt_return_tds : scoringWeight "punt_return_tds" = 6 := rfl

end ScoringWeightValues

section TableLemmas

theorem padRow_length_of_le (n : ℕ) (r : List Cell) (h : r.length ≤ n) :
    (padRow n r).length = n := by
  simp [padRow]
  omega

theorem padRow_of_le (n : ℕ) (r : List Cell) (h : n ≤ r.length) :
    padRow n r = r := by
  simp [padRow, Nat.sub_eq_zero_of_le h]

/-- The second alignment pass applied to a row the first pass padded. -/
theorem fit_of_padded (n : ℕ) (r : List Cell) :
    (if (padRow n r).length < n then padRow n (padRow n r)
     else (padRow n r).take n) = fitRow n r := by
  rcases le_or_lt r.length n with h | h
  · rw [if_neg (by rw [padRow_length_of_le n r h]; omega)]
    rw [List.take_of_length_le (by rw [padRow_length_of_le n r h])]
    simp [fitRow, h]
  · rw [padRow_of_le n r h.le]
    rw [if_neg (by omega)]
    simp [fitRow, Nat.not_le.mpr h]

/-- The second alignment pass on a row no longer than the header. -/
theorem fit_of_le (n : ℕ) (r : List Cell) (h : r.length ≤ n) :
    (if r.length < n then padRow n r else r.take n) = fitRow n r := by
  rcases Nat.lt_or_ge r.length n with hlt | hge
  · simp [fitRow, hlt, h]
  · have heq : r.length = n := le_antisymm h hge
    rw [if_neg (by omega)]
    rw [List.take_of_length_le (by omega)]
    rw [fitRow, if_pos h, padRow, heq]
    simp

end TableLemmas

/-! ## Claim theorems -/

/-- C3: for every passing stat record the passing category total is
the sum over the recognized sub-stats of value times configured weight,
rounded to 2 decimals; on 300 yards, 2 touchdowns and 1 interception
with the configured weights it is 18. -/
theorem passing_points_weighted_sum (s : PassingStats) :
    calculate_passing_points s = specPassingPoints s ∧
    calculate_passing_points
      { passing_yards := 300, passing_tds := 2, interceptions := 1,
        two_point_conversions := 0 } = 18 := by
  constructor
  · unfold calculate_passing_points specPassingPoints
    simp only [List.map, List.sum_cons, List.sum_nil]
    congr 1
    ring
  · norm_num [calculate_passing_points, round2, roundHalfEven]

/-- C7: on a passing stat record whose passing_yards value is null, the
validator raises a TypeError (the None < 0 comparison) instead of
recording an issue, although on fully numeric records completions
exceeding attempts is recorded as an error making the result invalid,
and out-of-range yardage only as a warning. -/
theorem validate_passing_raises_on_null_yards :
    validate_stats_data_passing
      [[("player_id", .num 1), ("game_id", .num 1), ("attempts", .num 10),
        ("completions", .num 5), ("passing_yards", .vnone)]] = .error () ∧
    validate_stats_data_passing
      [[("player_id", .num 1), ("game_id", .num 1), ("attempts", .num 10),
        ("completions", .num 12), ("passing_yards", .num 80)]]
      = .ok { valid := false, errors := [.completionsExceedAttempts],
              warnings := [] } ∧
    validate_stats_data_passing
      [[("player_id", .num 1), ("game_id", .num 1), ("attempts", .num 40),
        ("completions", .num 30), ("passing_yards", .num 700)]]
      = .ok { valid := true, errors := [], warnings := [.unusualPassingYards] } := by
  exact ⟨rfl, rfl, rfl⟩

/-- C4 counterexample: with a 2-column header and one 4-cell body row,
the produced record has 3 fields (the scraper appends a player_link
column and truncates to the extended header), not the 2 header fields
the claim requires. -/
theorem row_truncation_counterexample :
    (normalizeTable ["a", "b"] [[some "1", some "2", some "3", some "4"]]).2
        = [[some "1", some "2", some "3"]] ∧
    (["a", "b"] : List String).length = 2 ∧
    ([some "1", some "2", some "3"] : List Cell).length ≠ 2 :=
  ⟨rfl, rfl, by decide⟩

/-- C4 amended: rows are right-padded with nulls or truncated to the
final header width, which is the original header width, plus one when
some row is longer than the header (the appended player_link column);
extraction is total, and the 6-column scenario with a 3-cell second row
yields two records, the second with 3 trailing nulls. -/
theorem table_rows_fit_final_header (headers : List String)
    (rows : List (List Cell)) :
    (normalizeTable headers rows).1.length = finalHeaderCount headers rows ∧
    (normalizeTable headers rows).2
      = rows.map (fitRow (finalHeaderCount headers rows)) ∧
    normalizeTable ["a", "b", "c", "d", "e", "f"]
        [[some "1", some "2", some "3", some "4", some "5", some "6"],
         [some "7", some "8", some "9"]]
      = (["a", "b", "c", "d", "e", "f"],
         [[some "1", some "2", some "3", some "4", some "5", some "6"],
          [some "7", some "8", some "9", none, none, none]]) := by
  refine ⟨?_, ?_, rfl⟩
  · by_cases hany : (rows.any (fun r => headers.length < r.length)) = true
    · simp [normalizeTable, finalHeaderCount, hany]
    · rw [Bool.not_eq_true] at hany
      simp [normalizeTable, finalHeaderCount, hany]
  · by_cases hany : (rows.any (fun r => headers.length < r.length)) = true
    · simp only [normalizeTable, finalHeaderCount, hany, if_true,
        List.length_append, List.length_singleton, List.map_map]
      apply List.map_congr_left
      intro r _
      exact fit_of_padded (headers.length + 1) r
    · rw [Bool.not_eq_true] at hany
      simp only [normalizeTable, finalHeaderCount, hany, Bool.false_eq_true,
        if_false]
      apply List.map_congr_left
      intro r hr
      have hle : r.length ≤ headers.length := by
        have h := List.any_eq_false.mp hany r hr
        simpa using h
      exact fit_of_le headers.length r hle

/-- C5: insert_bulk_data with the same batch applied twice yields the
same table (so the same final row count) as applied once, the second
application inserting 0 rows; and the returned count is the number of
rows the table actually grew by, duplicates of existing natural keys
being silently ignored. -/
theorem insert_bulk_data_idempotent (table data : List DbRecord) :
    insert_bulk_data (insert_bulk_data table data).1 data
      = ((insert_bulk_data table data).1, 0) ∧
    (insert_bulk_data table data).1.length
      = table.length + (insert_bulk_data table data).2 := by
  constructor
  · apply foldl_insertOrIgnore_stable
    intro r hr
    exact foldl_insertOrIgnore_key_present data (table, 0) r hr
  · have h := foldl_insertOrIgnore_count data (table, 0)
    simpa [insert_bulk_data] using h

section RateLimiterLemmas

theorem wfr_interval (cfg : RLConfig) (st : RLState) (o : Outcome) (now : ℚ) :
    (wait_for_request cfg st o now).interval
      = (updatePolicy cfg st.interval st.errors o).1 := rfl

theorem wfr_errors (cfg : RLConfig) (st : RLState) (o : Outcome) (now : ℚ) :
    (wait_for_request cfg st o now).errors
      = (updatePolicy cfg st.interval st.errors o).2 := rfl

/-- Every branch of the outcome policy keeps the interval at or below
the larger of the backoff cap and base times 2 to the error count. -/
theorem updatePolicy_soft_bound (cfg : RLConfig) (i : ℚ) (e : ℕ) (o : Outcome)
    (h : i ≤ max cfg.max_interval (cfg.base_interval * 2 ^ e)) :
    (updatePolicy cfg i e o).1
      ≤ max cfg.max_interval
          (cfg.base_interval * 2 ^ (updatePolicy cfg i e o).2) := by
  unfold updatePolicy
  split_ifs with h1 h2 h3 h4
  · exact le_trans (min_le_right _ _) (le_max_left _ _)
  · exact le_max_right _ _
  · exact h
  · exact le_trans (min_le_right _ _) (le_max_left _ _)
  · exact h

theorem runLimiter_soft_bound (cfg : RLConfig) (calls : List (Outcome × ℚ)) :
    ∀ st : RLState,
      st.interval ≤ max cfg.max_interval (cfg.base_interval * 2 ^ st.errors) →
      (runLimiter cfg st calls).interval
        ≤ max cfg.max_interval
            (cfg.base_interval * 2 ^ (runLimiter cfg st calls).errors) := by
  induction calls with
  | nil => intro st h; exact h
  | cons c rest ih =>
    intro st h
    refine ih _ ?_
    rw [wfr_interval, wfr_errors]
    exact updatePolicy_soft_bound cfg st.interval st.errors c.1 h

end RateLimiterLemmas

/-- C1: a rate-limited status (429, 502 or 503) increments the error
count and sets the interval to min(base times 2 to the new count, the
cap); and with base 1 and cap at least 4, after two consecutive 503
outcomes the third request is scheduled at least 4 seconds after the
second. -/
theorem rate_limited_backoff
    (cfg : RLConfig) (st0 : RLState) (b1 b2 : Bool) (t1 t2 : ℚ)
    (hbase : cfg.base_interval = 1) (hmax : 4 ≤ cfg.max_interval)
    (herr : st0.errors = 0) :
    (∀ (cfg2 : RLConfig) (st : RLState) (o : Outcome) (now : ℚ),
        isRateLimitStatus o.status = true →
        (wait_for_request cfg2 st o now).errors = st.errors + 1 ∧
        (wait_for_request cfg2 st o now).interval
          = min (cfg2.base_interval * 2 ^ (st.errors + 1)) cfg2.max_interval) ∧
    lastRequestTime (wait_for_request cfg st0 ⟨b1, some 503⟩ t1) + 4
      ≤ lastRequestTime
          (wait_for_request cfg (wait_for_request cfg st0 ⟨b1, some 503⟩ t1)
            ⟨b2, some 503⟩ t2) := by
  constructor
  · intro cfg2 st o now h
    rw [wfr_errors, wfr_interval]
    unfold updatePolicy
    rw [if_pos h]
    exact ⟨rfl, rfl⟩
  · have hrl : isRateLimitStatus (some 503) = true := rfl
    set st1 := wait_for_request cfg st0 ⟨b1, some 503⟩ t1 with hst1
    have h1e : st1.errors = 1 := by
      rw [hst1, wfr_errors]
      unfold updatePolicy
      rw [if_pos hrl, herr]
    have h2i : (wait_for_request cfg st1 ⟨b2, some 503⟩ t2).interval = 4 := by
      rw [wfr_interval]
      unfold updatePolicy
      rw [if_pos hrl, h1e, hbase]
      show (1 : ℚ) * 2 ^ (1 + 1) ⊓ cfg.max_interval = 4
      rw [show (1 : ℚ) * 2 ^ (1 + 1) = 4 by norm_num]
      exact min_eq_left hmax
    obtain ⟨u, hu⟩ : ∃ u, st1.last = some u := ⟨_, rfl⟩
    have hlast1 : lastRequestTime st1 = u := by rw [lastRequestTime, hu]; rfl
    have hlast2 :
        lastRequestTime (wait_for_request cfg st1 ⟨b2, some 503⟩ t2)
          = max t2 (u + (wait_for_request cfg st1 ⟨b2, some 503⟩ t2).interval) := by
      rw [wait_for_request, lastRequestTime, wfr_interval]
      rw [hu]
      rfl
    rw [hlast1, hlast2, h2i]
    exact le_max_right _ _

/-- C1 witness: the scenario at base 1, cap 60, starting fresh, with
both calls at clock time 0. -/
theorem rate_limited_backoff_witness :
    ((RLConfig.mk 1 60).base_interval = 1 ∧ 4 ≤ (RLConfig.mk 1 60).max_interval ∧
      (initRLState (RLConfig.mk 1 60)).errors = 0) ∧
    lastRequestTime
        (wait_for_request (RLConfig.mk 1 60) (initRLState (RLConfig.mk 1 60))
          ⟨true, some 503⟩ 0) + 4
      ≤ lastRequestTime
          (wait_for_request (RLConfig.mk 1 60)
            (wait_for_request (RLConfig.mk 1 60) (initRLState (RLConfig.mk 1 60))
              ⟨true, some 503⟩ 0)
            ⟨true, some 503⟩ 0) :=
  ⟨⟨rfl, by norm_num, rfl⟩,
    (rate_limited_backoff (RLConfig.mk 1 60) (initRLState (RLConfig.mk 1 60))
      true true 0 0 rfl (by norm_num) rfl).2⟩

/-- C6: a successful request with status 200 or 201, from a state with
a positive error count, decrements the count by one and sets the
interval to base times 2 to the new count. -/
theorem success_recovery (cfg : RLConfig) (st : RLState) (s : ℤ) (now : ℚ)
    (hs : s = 200 ∨ s = 201) (herr : 0 < st.errors) :
    (wait_for_request cfg st ⟨true, some s⟩ now).errors = st.errors - 1 ∧
    (wait_for_request cfg st ⟨true, some s⟩ now).interval
      = cfg.base_interval * 2 ^ (st.errors - 1) := by
  rw [wfr_errors, wfr_interval]
  unfold updatePolicy
  rcases hs with h | h <;> subst h <;>
    simp [isRateLimitStatus, herr]

/-- C6 witness: from two consecutive errors and interval 4, a 200
success relaxes to one error and interval 2. -/
theorem success_recovery_witness :
    ((200 : ℤ) = 200 ∨ (200 : ℤ) = 201) ∧ 0 < (RLState.mk 4 2 none).errors ∧
    ((wait_for_request (RLConfig.mk 1 60) (RLState.mk 4 2 none)
        ⟨true, some 200⟩ 0).errors = (RLState.mk 4 2 none).errors - 1 ∧
     (wait_for_request (RLConfig.mk 1 60) (RLState.mk 4 2 none)
        ⟨true, some 200⟩ 0).interval
       = (RLConfig.mk 1 60).base_interval * 2 ^ ((RLState.mk 4 2 none).errors - 1)) :=
  ⟨Or.inl rfl, by decide,
    success_recovery (RLConfig.mk 1 60) (RLState.mk 4 2 none) 200 0
      (Or.inl rfl) (by decide)⟩

/-- C9 counterexample: with base 1 and cap 60, seven consecutive 503
outcomes followed by one 200 success leave the stored interval at
1 times 2 to the 6, which is 64, strictly above the 60 cap. -/
theorem interval_exceeds_max_counterexample :
    (runLimiter (RLConfig.mk 1 60) (initRLState (RLConfig.mk 1 60))
        [(⟨true, some 503⟩, 0), (⟨true, some 503⟩, 0), (⟨true, some 503⟩, 0),
         (⟨true, some 503⟩, 0), (⟨true, some 503⟩, 0), (⟨true, some 503⟩, 0),
         (⟨true, some 503⟩, 0), (⟨true, some 200⟩, 0)]).interval = 64 ∧
    (RLConfig.mk 1 60).max_interval
      < (runLimiter (RLConfig.mk 1 60) (initRLState (RLConfig.mk 1 60))
          [(⟨true, some 503⟩, 0), (⟨true, some 503⟩, 0), (⟨true, some 503⟩, 0),
           (⟨true, some 503⟩, 0), (⟨true, some 503⟩, 0), (⟨true, some 503⟩, 0),
           (⟨true, some 503⟩, 0), (⟨true, some 200⟩, 0)]).interval := by
  have h : (runLimiter (RLConfig.mk 1 60) (initRLState (RLConfig.mk 1 60))
      [(⟨true, some 503⟩, 0), (⟨true, some 503⟩, 0), (⟨true, some 503⟩, 0),
       (⟨true, some 503⟩, 0), (⟨true, some 503⟩, 0), (⟨true, some 503⟩, 0),
       (⟨true, some 503⟩, 0), (⟨true, some 200⟩, 0)]).interval = 64 := by
    simp [runLimiter, wait_for_request, updatePolicy, initRLState,
      isRateLimitStatus]
    norm_num [min_def]
  refine ⟨h, ?_⟩
  rw [h]
  norm_num

/-- C9 amended: over every call sequence the stored interval stays at
or below the larger of the cap and base times 2 to the current error
count; the plain cap itself can be exceeded, because the
success-recovery branch does not clamp. -/
theorem interval_soft_bound (cfg : RLConfig) (calls : List (Outcome × ℚ)) :
    (runLimiter cfg (initRLState cfg) calls).interval
      ≤ max cfg.max_interval
          (cfg.base_interval * 2 ^ (runLimiter cfg (initRLState cfg) calls).errors) := by
  apply runLimiter_soft_bound
  rw [initRLState]
  simp

section BulkFantasyLemmas

/-- One step of the record-building loop when the player is unknown. -/
theorem bulkFantasyRecords_cons_none (db : StatsDb) (a1 a2 : ℕ)
    (rest : List (ℕ × ℕ))
    (h : calculate_player_game_points db a1 a2 = none) :
    bulkFantasyRecords db ((a1, a2) :: rest) = bulkFantasyRecords db rest := by
  unfold bulkFantasyRecords
  rw [List.filterMap_cons]
  simp only [h]

/-- One step of the loop when the total is strictly positive. -/
theorem bulkFantasyRecords_cons_pos (db : StatsDb) (a1 a2 : ℕ)
    (rest : List (ℕ × ℕ)) (bd : PointsBreakdown)
    (h : calculate_player_game_points db a1 a2 = some bd)
    (hpos : 0 < bd.total_points) :
    bulkFantasyRecords db ((a1, a2) :: rest)
      = ({ player_id := a1, game_id := a2, points := bd } : FantasyRecord)
          :: bulkFantasyRecords db rest := by
  unfold bulkFantasyRecords
  rw [List.filterMap_cons]
  simp only [h, if_pos hpos]

/-- One step of the loop when the total is not strictly positive. -/
theorem bulkFantasyRecords_cons_nonpos (db : StatsDb) (a1 a2 : ℕ)
    (rest : List (ℕ × ℕ)) (bd : PointsBreakdown)
    (h : calculate_player_game_points db a1 a2 = some bd)
    (hpos : ¬ 0 < bd.total_points) :
    bulkFantasyRecords db ((a1, a2) :: rest) = bulkFantasyRecords db rest := by
  unfold bulkFantasyRecords
  rw [List.filterMap_cons]
  simp only [h, if_neg hpos]

/-- No record carries a pair that was not in the processed list. -/
theorem bulk_count_not_mem (db : StatsDb) (p g : ℕ) :
    ∀ pairs : List (ℕ × ℕ), (p, g) ∉ pairs →
      (bulkFantasyRecords db pairs).countP
        (fun r => decide ((r.player_id, r.game_id) = (p, g))) = 0 := by
  intro pairs
  induction pairs with
  | nil => intro _; rfl
  | cons a rest ih =>
    obtain ⟨a1, a2⟩ := a
    intro h
    have hne : ((a1 : ℕ), (a2 : ℕ)) ≠ (p, g) :=
      fun he => h (he ▸ List.mem_cons_self (a1, a2) rest)
    have hmem : (p, g) ∉ rest := fun hm => h (List.mem_cons_of_mem _ hm)
    rcases hcalc : calculate_player_game_points db a1 a2 with _ | bd
    · rw [bulkFantasyRecords_cons_none db a1 a2 rest hcalc]
      exact ih hmem
    · by_cases hpos : 0 < bd.total_points
      · rw [bulkFantasyRecords_cons_pos db a1 a2 rest bd hcalc hpos,
          List.countP_cons, ih hmem]
        simp [hne]
      · rw [bulkFantasyRecords_cons_nonpos db a1 a2 rest bd hcalc hpos]
        exact ih hmem

end BulkFantasyLemmas

/-- C2 counterexample: a player whose only statistic is one
interception thrown has the nonzero combined total -2, yet
bulk_calculate_fantasy_points builds no record for the pair, because
the code keeps a pair only when the total is strictly positive. -/
theorem negative_total_not_persisted :
    bulkFantasyRecords interceptionOnlyDb [(1, 1)] = [] ∧
    (calculate_player_game_points interceptionOnlyDb 1 1).map
        PointsBreakdown.total_points = some (-2) := by
  have h : calculate_player_game_points interceptionOnlyDb 1 1
      = some ⟨-2, 0, 0, 0, 0, -2⟩ := by
    simp [calculate_player_game_points, interceptionOnlyDb, isDefensivePosition,
      calculate_passing_points, calculate_rushing_points,
      calculate_receiving_points, calculate_special_teams_points]
    norm_num [round2, roundHalfEven]
  constructor
  · simp [bulkFantasyRecords, h]
  · rw [h]
    rfl

/-- C2 amended: a (player, game) pair of the processed batch yields a
fantasy-point record exactly once when its computed combined total is
strictly positive, and no record otherwise: zero and negative combined
totals are both dropped. -/
theorem bulk_fantasy_stores_iff_positive (db : StatsDb)
    (pairs : List (ℕ × ℕ)) (p g : ℕ) (hnd : pairs.Nodup) :
    (bulkFantasyRecords db pairs).countP
        (fun r => decide ((r.player_id, r.game_id) = (p, g)))
      = if (p, g) ∈ pairs ∧ storesPair db p g = true then 1 else 0 := by
  induction pairs with
  | nil => simp [bulkFantasyRecords]
  | cons a rest ih =>
    obtain ⟨a1, a2⟩ := a
    have hnr : rest.Nodup := (List.nodup_cons.mp hnd).2
    have hanr : ((a1 : ℕ), (a2 : ℕ)) ∉ rest := (List.nodup_cons.mp hnd).1
    by_cases ha : ((a1 : ℕ), (a2 : ℕ)) = (p, g)
    · injection ha with ha1 ha2
      subst ha1
      subst ha2
      have hcnt := bulk_count_not_mem db a1 a2 rest hanr
      rcases hcalc : calculate_player_game_points db a1 a2 with _ | bd
      · rw [bulkFantasyRecords_cons_none db a1 a2 rest hcalc, hcnt]
        have hsf : storesPair db a1 a2 = false := by
          unfold storesPair; rw [hcalc]
        simp [hsf]
      · by_cases hpos : 0 < bd.total_points
        · rw [bulkFantasyRecords_cons_pos db a1 a2 rest bd hcalc hpos,
            List.countP_cons, hcnt]
          have hst : storesPair db a1 a2 = true := by
            unfold storesPair; rw [hcalc]; simpa using hpos
          simp [hst]
        · rw [bulkFantasyRecords_cons_nonpos db a1 a2 rest bd hcalc hpos, hcnt]
          have hsf : storesPair db a1 a2 = false := by
            unfold storesPair; rw [hcalc]; simpa using hpos
          simp [hsf]
    · have hiff : ((p, g) ∈ (a1, a2) :: rest ∧ storesPair db p g = true)
          ↔ ((p, g) ∈ rest ∧ storesPair db p g = true) := by
        constructor
        · rintro ⟨hm, hs⟩
          rcases List.mem_cons.mp hm with he | hm2
          · exact absurd he.symm ha
          · exact ⟨hm2, hs⟩
        · rintro ⟨hm, hs⟩
          exact ⟨List.mem_cons_of_mem _ hm, hs⟩
      rw [if_congr hiff rfl rfl]
      rcases hcalc : calculate_player_game_points db a1 a2 with _ | bd
      · rw [bulkFantasyRecords_cons_none db a1 a2 rest hcalc]
        exact ih hnr
      · by_cases hpos : 0 < bd.total_points
        · rw [bulkFantasyRecords_cons_pos db a1 a2 rest bd hcalc hpos,
            List.countP_cons, ih hnr]
          simp [ha]
        · rw [bulkFantasyRecords_cons_nonpos db a1 a2 rest bd hcalc hpos]
          exact ih hnr

/-- C2 witness: the one-pair batch over the positive-total database. -/
theorem bulk_fantasy_stores_iff_positive_witness :
    ([((1 : ℕ), (1 : ℕ))].Nodup) ∧
    ((bulkFantasyRecords positiveTotalDb [(1, 1)]).countP
        (fun r => decide ((r.player_id, r.game_id) = (1, 1)))
      = if ((1 : ℕ), (1 : ℕ)) ∈ [((1 : ℕ), (1 : ℕ))]
            ∧ storesPair positiveTotalDb 1 1 = true then 1 else 0) :=
  ⟨by decide,
    bulk_fantasy_stores_iff_positive positiveTotalDb [(1, 1)] 1 1 (by decide)⟩

/-- C10: whenever calculate_player_game_points returns a breakdown,
its total_points field is the sum of the five category fields. -/
theorem breakdown_total_eq_sum (db : StatsDb) (p g : ℕ)
    (bd : PointsBreakdown)
    (h : calculate_player_game_points db p g = some bd) :
    bd.total_points = bd.passing_points + bd.rushing_points
      + bd.receiving_points + bd.defensive_points
      + bd.special_teams_points := by
  unfold calculate_player_game_points at h
  rcases hpos : db.position p with _ | pos
  · rw [hpos] at h
    cases h
  · rw [hpos] at h
    injection h with h
    subst h
    rfl

/-- C10 witness: the positive-total database at player 1, game 1. -/
theorem breakdown_total_eq_sum_witness :
    calculate_player_game_points positiveTotalDb 1 1
      = some (PointsBreakdown.mk 12 0 0 0 0 12) ∧
    (PointsBreakdown.mk 12 0 0 0 0 12).total_points
      = (PointsBreakdown.mk 12 0 0 0 0 12).passing_points
        + (PointsBreakdown.mk 12 0 0 0 0 12).rushing_points
        + (PointsBreakdown.mk 12 0 0 0 0 12).receiving_points
        + (PointsBreakdown.mk 12 0 0 0 0 12).defensive_points
        + (PointsBreakdown.mk 12 0 0 0 0 12).special_teams_points := by
  have h : calculate_player_game_points positiveTotalDb 1 1
      = some (PointsBreakdown.mk 12 0 0 0 0 12) := by
    simp [calculate_player_game_points, positiveTotalDb, isDefensivePosition,
      calculate_passing_points, calculate_rushing_points,
      calculate_receiving_points, calculate_special_teams_points]
    norm_num [round2, roundHalfEven]
  exact ⟨h, breakdown_total_eq_sum positiveTotalDb 1 1 _ h⟩

/-- A schedule event carrying only a season year and a game date three
days after the first Thursday of September. -/
def weekScenarioEvent : Event :=
  { season := some { year := some 2023 }, date := some (.valid ⟨2023, 9, 10⟩) }

/-- C8: when no method raises, week extraction is the prioritized
fallback chain over the five methods, each later stage consulted only
when every earlier one produced nothing, null when all fail; and the
date-arithmetic estimate only ever produces a week in 1..22. -/
theorem extract_week_fallback_chain (e : Event) (o1 o2 o4 : Option ℤ)
    (h1 : stageEventWeek e = .ok o1)
    (h2 : stageCompetitionWeek e = .ok o2)
    (h4 : dateEstimateValue e = .ok o4) :
    extract_week_from_event e
      = o1.orElse (fun _ => o2.orElse (fun _ =>
          (seasonStageValue e).orElse (fun _ =>
            o4.orElse (fun _ => textScanValue e)))) ∧
    (∀ w, o4 = some w → 1 ≤ w ∧ w ≤ 22) := by
  constructor
  · unfold extract_week_from_event
    rw [h1, h2, h4]
    rcases o1 with _ | w1
    · rcases o2 with _ | w2
      · rcases hs3 : seasonStageValue e with _ | w3
        · rcases o4 with _ | w4
          · rfl
          · rfl
        · rfl
      · rfl
    · rfl
  · intro w hw
    rw [hw] at h4
    unfold dateEstimateValue at h4
    split at h4
    · simp at h4
    · simp at h4
    · split at h4
      · simp at h4
      · split at h4
        · simp at h4
        · split at h4
          · simp at h4
          · split at h4
            · rename_i hr
              injection h4 with h4
              injection h4 with h4
              rw [h4] at hr
              exact hr
            · simp at h4

/-- C8 witness: an event whose first three methods produce nothing and
whose date estimate produces week 1. -/
theorem extract_week_fallback_chain_witness :
    (stageEventWeek weekScenarioEvent = .ok none ∧
     stageCompetitionWeek weekScenarioEvent = .ok none ∧
     dateEstimateValue weekScenarioEvent = .ok (some 1)) ∧
    (extract_week_from_event weekScenarioEvent
        = (none : Option ℤ).orElse (fun _ => (none : Option ℤ).orElse (fun _ =>
            (seasonStageValue weekScenarioEvent).orElse (fun _ =>
              (some (1 : ℤ)).orElse (fun _ => textScanValue weekScenarioEvent)))) ∧
     (∀ w, (some (1 : ℤ)) = some w → 1 ≤ w ∧ w ≤ 22)) :=
  ⟨⟨rfl, rfl, rfl⟩,
    extract_week_fallback_chain weekScenarioEvent none none (some 1)
      rfl rfl rfl⟩

end NFLFantasy
